import Mathlib

/-!
Verification of the pyiron_gui navigation/browsing core against its
natural-language specification.

The development shallowly embeds:
  - the nested key/value container data source (pyiron_base.DataContainer)
    as browsed by the browsers in this repository,
  - the spec's History Ledger and history-tracking navigation engine
    (the `HasGroupsBrowser` family is exercised by `src/tests` but absent
    from `src/`, so it is modelled from the spec),
  - `ProjectBrowser` and `DataContainerBrowser` state and the mutating
    handlers from `src/pyiron_gui/project/project_browser.py` and
    `src/pyiron_gui/datacontainer/browser.py`,
  - the busy-guard wrappers from `src/pyiron_gui/utils/decorators.py`
    versus the browsers' inline handler pattern,
  - `NumpyWidget._plot_array` from `src/pyiron_gui/wrapper/wrapper.py`
    (identical copy in `project_browser.py`).

Python exceptions are modelled explicitly: a mutating operation returns its
final state together with an optional uncaught exception; `Except` is used
for expression-level fetches.
-/

namespace PyironGui

/-- The Python exception classes that the browsing code raises or catches. -/
inductive PyErr where
  | valueError
  | attributeError
  | keyError
  | ioError
  | typeError
deriving DecidableEq

/-- Model of a `pyiron_base.DataContainer` value: scalars are terminal
nodes, nested dicts and lists (including empty ones) become sub-containers.
The classification is the one pinned by the repository's own test data
`TEST_DATA_CONTAINER` in `src/tests/project/test_browser.py` (where the
empty-list entry `"C"` is asserted to be a group). -/
inductive DCValue where
  | leaf : Int → DCValue
  | group : List (String × DCValue) → DCValue

/-- `True` for sub-containers (groups), `False` for terminal nodes. -/
def DCValue.isGroup : DCValue → Bool
  | .leaf _ => false
  | .group _ => true

/-- `DataContainer.list_groups()`: the keys whose values are sub-containers,
in insertion order. -/
def DCValue.list_groups : DCValue → List String
  | .leaf _ => []
  | .group kvs => (kvs.filter (fun kv => kv.snd.isGroup)).map Prod.fst

/-- `DataContainer.list_nodes()`: the keys whose values are terminal, in
insertion order. -/
def DCValue.list_nodes : DCValue → List String
  | .leaf _ => []
  | .group kvs => (kvs.filter (fun kv => !kv.snd.isGroup)).map Prod.fst

/-- Fetch a direct child by name; `none` when the name is absent or the
value is terminal. -/
def DCValue.get : DCValue → String → Option DCValue
  | .leaf _, _ => none
  | .group kvs, name => kvs.lookup name

/-- `list_nodes()` as an attribute access: a scalar (e.g. an `int`) has no
`list_nodes` and accessing it raises `AttributeError` (`none`); containers
expose it. -/
def DCValue.listNodesAttr : DCValue → Option (List String)
  | .leaf _ => none
  | .group kvs => some ((kvs.filter (fun kv => !kv.snd.isGroup)).map Prod.fst)

/-- The spec's example container `{"A": 10, "B": {"B1": {...}}, "C": []}`
(section 8 of the spec); `B1` is some non-empty sub-container. -/
def dcSpecContainer : DCValue :=
  DCValue.group
    [("A", DCValue.leaf 10),
     ("B", DCValue.group [("B1", DCValue.group [("a", DCValue.leaf 1)])]),
     ("C", DCValue.group [])]

/-- The repository's `TEST_DATA_CONTAINER` from
`src/tests/project/test_browser.py` (scalar payloads abbreviated to ints;
only the group/node classification matters here). -/
def dcTestContainer : DCValue :=
  DCValue.group
    [("A", DCValue.leaf 10),
     ("B", DCValue.group
        [("B1", DCValue.group [("a", DCValue.leaf 1), ("b", DCValue.leaf 2)]),
         ("B2", DCValue.group [("h", DCValue.leaf 1), ("i", DCValue.leaf 2)]),
         ("B3", DCValue.leaf 5),
         ("B4", DCValue.leaf 0)]),
     ("C", DCValue.group []),
     ("D", DCValue.leaf 1),
     ("E", DCValue.group
        [("some_node", DCValue.leaf 0),
         ("NAME", DCValue.leaf 0),
         ("TYPE", DCValue.leaf 0),
         ("VERSION", DCValue.leaf 0),
         ("HDF_VERSION", DCValue.leaf 0)])]

/-- Modelled from the spec: the error taxonomy of the History Ledger and
Navigation Engine (spec section 7). The history-tracking browser classes
(`HasGroupsBrowser` and descendants) are imported by
`src/tests/project/test_browser.py` but are missing from `src/`. -/
inductive NavError where
  | atStart
  | atEnd
  | lockedNavigation
  | notFound
  | notBrowsable
deriving DecidableEq

/-- Modelled from the spec: the History Ledger (spec section 4.1), an
append-only, truncate-on-branch list of visited positions with a cursor. -/
structure History where
  entries : List DCValue
  cursor : Nat

/-- Modelled from the spec: `record(entry)`: if `cursor < len(entries)-1`,
drop everything after `cursor`; append `entry`; set
`cursor = len(entries)-1`. -/
def History.record (h : History) (e : DCValue) : History :=
  let kept :=
    if h.cursor < h.entries.length - 1 then h.entries.take (h.cursor + 1)
    else h.entries
  { entries := kept ++ [e], cursor := (kept ++ [e]).length - 1 }

/-- Modelled from the spec: `go_back()`: fails with `AtStart` if
`cursor == 0`; else `cursor -= 1`. -/
def History.go_back (h : History) : Except NavError History :=
  if h.cursor = 0 then .error .atStart
  else .ok { h with cursor := h.cursor - 1 }

/-- Modelled from the spec: `go_forward()`: fails with `AtEnd` if
`cursor == len(entries)-1`; else `cursor += 1`. -/
def History.go_forward (h : History) : Except NavError History :=
  if h.cursor = h.entries.length - 1 then .error .atEnd
  else .ok { h with cursor := h.cursor + 1 }

/-- Modelled from the spec: the Navigation Engine state over the nested
container data source: the History Ledger, the zero-or-one selected leaf
and the lock flag (spec section 3, NavigationState). -/
structure NavEngine where
  history : History
  selected : Option String
  locked : Bool

/-- Modelled from the spec: `current` is always `entries[cursor]`'s
referent. -/
def NavEngine.current (s : NavEngine) : DCValue :=
  s.history.entries.getD s.history.cursor (DCValue.group [])

/-- Modelled from the spec: `enter_group(name)` (spec section 4.2): fails
with `LockedNavigation` if locked and `NotFound` when the name is absent;
a fetched sub-container becomes the new current (recorded in the ledger,
selection cleared); a terminal value is not browsable and leaves the state
unchanged. -/
def NavEngine.enter_group (s : NavEngine) (name : String) : Except NavError NavEngine :=
  if s.locked then .error .lockedNavigation
  else
    match s.current.get name with
    | none => .error .notFound
    | some (DCValue.leaf v) =>
        let _ := v
        .error .notBrowsable
    | some (DCValue.group kvs) =>
        .ok { s with history := s.history.record (DCValue.group kvs), selected := none }

/-- Modelled from the spec: engine-level `go_back()`: fails with
`LockedNavigation` if locked, else delegates to the History Ledger and
clears the selection (spec section 4.2). -/
def NavEngine.go_back (s : NavEngine) : Except NavError NavEngine :=
  if s.locked then .error .lockedNavigation
  else
    match s.history.go_back with
    | .error e => .error e
    | .ok h => .ok { s with history := h, selected := none }

/-- Modelled from the spec: engine-level `go_forward()`, symmetric to
`go_back()`. -/
def NavEngine.go_forward (s : NavEngine) : Except NavError NavEngine :=
  if s.locked then .error .lockedNavigation
  else
    match s.history.go_forward with
    | .error e => .error e
    | .ok h => .ok { s with history := h, selected := none }

/-- A user-triggered `go_back` click: on failure the error is only
reported and the engine keeps its state. -/
def NavEngine.stepBack (s : NavEngine) : NavEngine :=
  match s.go_back with
  | .ok t => t
  | .error _ => s

/-- A user-triggered `go_forward` click: on failure the error is only
reported and the engine keeps its state. -/
def NavEngine.stepForward (s : NavEngine) : NavEngine :=
  match s.go_forward with
  | .ok t => t
  | .error _ => s

/-- An engine freshly opened on a root container. -/
def NavEngine.start (root : DCValue) : NavEngine :=
  { history := { entries := [root], cursor := 0 }, selected := none, locked := false }

/-- A Python value as handled by `ProjectBrowser`: `pynone` is Python's
`None`; `obj path nodes toObj items` is any project-like object with its
`path`, its `list_nodes()` behavior (`none`: accessing the attribute raises
`AttributeError`), its `to_object()` behavior and its `__getitem__` table
(an absent key raises `KeyError`); `wrapped` is a `BaseWrapper` around a
payload (produced by `PyironWrapper`). -/
inductive PyVal where
  | pynone : PyVal
  | obj : String → Option (List String) → Except PyErr PyVal → List (String × Except PyErr PyVal) → PyVal
  | wrapped : PyVal → PyVal

/-- `path`: for a `BaseWrapper` the wrapped object's path
(`BaseWrapper.path`, first branch); `None` has no path (unused). -/
def PyVal.pathOf : PyVal → String
  | .pynone => ""
  | .obj p _ _ _ => p
  | .wrapped inner => inner.pathOf

/-- `__getitem__`: for a `BaseWrapper` the lookup is forwarded to the
wrapped object (`BaseWrapper.__getitem__` try-branch; the project-relative
fallback is not exercised by any input considered here). -/
def PyVal.getitem : PyVal → String → Except PyErr PyVal
  | .pynone, _ => .error .typeError
  | .obj _ _ _ items, name =>
      match items.lookup name with
      | some r => r
      | none => .error .keyError
  | .wrapped inner, name => inner.getitem name

/-- `list_nodes` as an attribute: `None` for objects without it (the access
raises `AttributeError`); `BaseWrapper.__getattr__` forwards `list_nodes`
to the wrapped object and substitutes an empty list when missing. -/
def PyVal.listNodesAttr : PyVal → Option (List String)
  | .pynone => none
  | .obj _ ns _ _ => ns
  | .wrapped inner => some ((inner.listNodesAttr).getD [])

/-- `to_object()`: only project-like objects carry it; on anything else the
attribute access raises `AttributeError`. -/
def PyVal.toObject : PyVal → Except PyErr PyVal
  | .obj _ _ t _ => t
  | _ => .error .attributeError

/-- Whether the value is a `BaseWrapper` instance. -/
def PyVal.isWrapped : PyVal → Bool
  | .wrapped _ => true
  | _ => false

/-- `str.startswith(p)` on the character sequence (kernel-evaluable
rendering of the Python operation). -/
def strStartsWith (s p : String) : Bool := p.data.isPrefixOf s.data

/-- `str.endswith(p)` on the character sequence. -/
def strEndsWith (s p : String) : Bool := p.data.isSuffixOf s.data

/-- `s[n:]` on the character sequence. -/
def strDrop (s : String) (n : Nat) : String := { data := s.data.drop n }

/-- `str.split(c)` on the character sequence. -/
def splitCharAux (c : Char) : List Char → List (List Char)
  | [] => [[]]
  | x :: xs =>
      if x = c then [] :: splitCharAux c xs
      else
        match splitCharAux c xs with
        | [] => [[x]]
        | y :: ys => (x :: y) :: ys

/-- `str.split('/')`. -/
def splitSlash (s : String) : List String :=
  (splitCharAux ('/') s.data).map (fun l => { data := l })

/-- `os.path.join(p, f)` for a relative `f` as used by the browsers. -/
def pathJoin (p f : String) : String :=
  if p = "" then f
  else if strEndsWith p ("/") then p ++ f
  else p ++ "/" ++ f

/-- `os.path.relpath(path, base)`, restricted to the cases arising in the
operations verified here: `path` equal to `base` or lying below it (no
`..` traversal; the browser always joins `base` with a relative name
before calling it). -/
def relpath (path base : String) : String :=
  if path = base then "."
  else if strStartsWith path (base ++ "/") then strDrop path (base.length + 1)
  else path

/-- The displayable message printed by `_update_project_worker` on a
recovered error. -/
def msgNoValidPath : String := "No valid path"

/-- The displayable message printed by `_click_option_button` when the path
box is empty. -/
def msgNoPathGiven : String := "No path given"

/-- The `FileData(data=..., file=..., metadata={"path": ...})` record
stored by `ProjectBrowser._on_click_file`. -/
structure FileDataM where
  file : String
  filepath : String
  payload : PyVal

/-- The mutable state of `ProjectBrowser` relevant to navigation and
selection: `project` (`self._project`, the current position),
`pathStringBox` (`self.path_string_box.value`), `clickedFiles`
(`self._clickedFiles`), `stored` (`self._data`), the printed user-facing
`messages`, `fixPath` (`self._fix_path`) and `busy` (`self._busy`). -/
structure PBState where
  project : PyVal
  pathStringBox : String
  clickedFiles : List String
  stored : Option FileDataM
  messages : List String
  fixPath : Bool
  busy : Bool

/-- `ProjectBrowser.path` = `self.project.path`. -/
def PBState.path (s : PBState) : String := s.project.pathOf

/-- The body of the outer `try` in `ProjectBrowser._update_project_worker`:
fetch `self.project[rel_path]`; if `'TYPE' in new_project.list_nodes()`,
attempt `PyironWrapper(new_project.to_object(), ...)`, where only a
`ValueError` from the attempt is swallowed (`except ValueError: pass`, so
the raw fetched value is kept) and any other exception escapes to the
outer handler. -/
def pbTryBody (project : PyVal) (relPath : String) : Except PyErr PyVal :=
  match project.getitem relPath with
  | .error e => .error e
  | .ok np =>
      match np.listNodesAttr with
      | none => .error .attributeError
      | some nodes =>
          if ("TYPE") ∈ nodes then
            match np.toObject with
            | .error PyErr.valueError => .ok np
            | .error e => .error e
            | .ok o => .ok (PyVal.wrapped o)
          else .ok np

/-- `ProjectBrowser._update_project_worker(rel_path)`: the outer handler
catches exactly `(ValueError, AttributeError)` — resetting the path box
and printing "No valid path" — any other exception (e.g. `KeyError`)
propagates; on success `self._project` is replaced unless the fetched
value is `None`. Returns the final state and the uncaught exception, if
any. -/
def pbUpdateProjectWorker (s : PBState) (relPath : String) : PBState × Option PyErr :=
  match pbTryBody s.project relPath with
  | .error PyErr.valueError | .error PyErr.attributeError =>
      ({ s with pathStringBox := "", messages := s.messages ++ [msgNoValidPath] }, none)
  | .error e => (s, some e)
  | .ok PyVal.pynone => (s, none)
  | .ok np => ({ s with project := np }, none)

/-- `ProjectBrowser._update_project(path)` for a string path: a relative
path of `.` only refreshes; otherwise delegate to the worker. -/
def pbUpdateProject (s : PBState) (path : String) : PBState × Option PyErr :=
  let rel := relpath path s.path
  if rel = "." then (s, none)
  else pbUpdateProjectWorker s rel

/-- The `Set Path` arm of `ProjectBrowser._click_option_button`: locked
(`fix_path`) returns untouched; an empty path box only prints
"No path given"; a relative entry is joined to the current path with
`path + '/' + value`, an absolute entry is taken as is. -/
def pbClickSetPath (s : PBState) : PBState × Option PyErr :=
  if s.fixPath then (s, none)
  else if s.pathStringBox = "" then
    ({ s with messages := s.messages ++ [msgNoPathGiven] }, none)
  else
    let path :=
      if strStartsWith s.pathStringBox ("/") then s.pathStringBox
      else s.path ++ "/" ++ s.pathStringBox
    pbUpdateProject s path

/-- The `Reset selection` arm of `ProjectBrowser._click_option_button`. -/
def pbResetSelection (s : PBState) : PBState :=
  { s with clickedFiles := [], stored := none }

/-- A button of the path box with its `disabled` flag. -/
structure PathButton where
  desc : String
  disabled : Bool
deriving DecidableEq

/-- The buttons generated by `ProjectBrowser._update_pathbox`: the home
button is disabled when `fix_path` is set; each path button is disabled
when `fix_path` is set or the path lies above the project root
(`len(path) < len_root_path - 1`). The path list and root-path length are
the ones the source computes from the current project. -/
def pbGenPathboxButtons (s : PBState) (pathList : List String) (lenRootPath : Nat) : List PathButton :=
  { desc := ("home"), disabled := s.fixPath } ::
    pathList.map (fun p => { desc := p, disabled := s.fixPath || decide (p.length < lenRootPath - 1) })

/-- The `on_click_group` handler created in `ProjectBrowser._update_filebox`
for every directory button: busy-guard at entry, then
`self._update_project(os.path.join(self.path, b.description))`, then
`self._busy_check(False)` — which is only reached on normal return. There
is no `fix_path` check on this path. -/
def pbOnClickGroup (s : PBState) (dirname : String) : PBState × Option PyErr :=
  if s.busy then (s, none)
  else
    let s1 : PBState := { s with busy := true }
    let r := pbUpdateProject s1 (pathJoin s1.path dirname)
    match r.snd with
    | none => ({ r.fst with busy := false }, none)
    | some e => (r.fst, some e)

/-- The tail of `ProjectBrowser._on_click_file` after the data fetch: a
previously clicked path toggles off (clear `self._data`, remove the path);
otherwise `self._data` is replaced only when the fetch produced data, and
the clicked list is set to the single new path in either case. -/
def pbClickFileUpdate (s : PBState) (filename filepath : String) (data : Option PyVal) : PBState :=
  if filepath ∈ s.clickedFiles then
    { s with stored := none, clickedFiles := s.clickedFiles.erase filepath }
  else
    match data with
    | none => { s with clickedFiles := [filepath] }
    | some d =>
        { s with stored := some { file := filename, filepath := filepath, payload := d },
                 clickedFiles := [filepath] }

/-- `ProjectBrowser._on_click_file(filename)`: fetch
`self.project[filename]`, catching exactly `(KeyError, IOError)` as
"no data"; any other exception propagates. -/
def pbOnClickFileInner (s : PBState) (filename : String) : PBState × Option PyErr :=
  let filepath := pathJoin s.path filename
  match s.project.getitem filename with
  | .error PyErr.keyError | .error PyErr.ioError =>
      (pbClickFileUpdate s filename filepath none, none)
  | .error e => (s, some e)
  | .ok d => (pbClickFileUpdate s filename filepath (some d), none)

/-- What `ProjectBrowser.data` exposes: the stored `FileData` if a leaf
selection stored one, else the wrapped object when the current position is
a `BaseWrapper`, else `None`. -/
inductive BrowserData where
  | fileData : FileDataM → BrowserData
  | rawObject : PyVal → BrowserData

/-- `ProjectBrowser.data`. -/
def PBState.data (s : PBState) : Option BrowserData :=
  match s.stored with
  | some fd => some (BrowserData.fileData fd)
  | none =>
      match s.project with
      | PyVal.wrapped inner => some (BrowserData.rawObject inner)
      | _ => none

/-- The mutable state of `DataContainerBrowser`: the root container
(`self._data_container`), the current container
(`self._current_data_container`), `dcPath` (`self._path`),
the path box value, `clickedData` (`self._clicked_data`), `stored`
(`self._data`), printed messages and the busy flag. -/
structure DCState where
  root : DCValue
  currentDC : DCValue
  dcPath : String
  pathStringBox : String
  clickedData : List String
  stored : Option String
  messages : List String
  busy : Bool

/-- `DataContainer.__getitem__` on a `/`-separated path: walk the segments;
a missing key raises `KeyError`; descending below a terminal value raises
a non-`(ValueError, AttributeError, KeyError)` error (modelled as
`TypeError`). -/
def dcGetSegs : DCValue → List String → Except PyErr DCValue
  | v, [] => .ok v
  | DCValue.group kvs, n :: rest =>
      match kvs.lookup n with
      | some v => dcGetSegs v rest
      | none => .error .keyError
  | DCValue.leaf _, _ :: _ => .error .typeError

/-- `self._data_container[path]`. -/
def dcGet (root : DCValue) (path : String) : Except PyErr DCValue :=
  dcGetSegs root (splitSlash path)

/-- The body of the `try` in `DataContainerBrowser._update_project_worker`:
fetch, then evaluate `'TYPE' in new_project.list_nodes()` (which raises
`AttributeError` on a terminal value and is otherwise without effect, the
branch body being `pass`). -/
def dcTryBody (root : DCValue) (path : String) : Except PyErr DCValue :=
  match dcGet root path with
  | .error e => .error e
  | .ok np =>
      match np.listNodesAttr with
      | none => .error .attributeError
      | some _ => .ok np

/-- `DataContainerBrowser._update_project_worker(path)`: `/` or the empty
path resets to the root; a leading `/` is stripped; the handler catches
`(ValueError, AttributeError, KeyError)` — resetting the path box and
printing "No valid path" — and on success both `self._path` and
`self._current_data_container` are updated. -/
def dcUpdateProjectWorker (s : DCState) (path : String) : DCState × Option PyErr :=
  if path = "/" ∨ path = "" then
    ({ s with dcPath := "", currentDC := s.root }, none)
  else
    let p := if strStartsWith path ("/") then strDrop path 1 else path
    match dcTryBody s.root p with
    | .error PyErr.valueError | .error PyErr.attributeError | .error PyErr.keyError =>
        ({ s with pathStringBox := "", messages := s.messages ++ [msgNoValidPath] }, none)
    | .error e => (s, some e)
    | .ok np => ({ s with dcPath := p, currentDC := np }, none)

/-- The tail of `DataContainerBrowser._on_click_file` after the fetch:
toggle off a previously clicked path, else record the new path as both the
selection and `self._data` (even when the fetch produced no data). -/
def dcClickFileUpdate (s : DCState) (filepath : String) : DCState :=
  if filepath ∈ s.clickedData then
    { s with stored := none, clickedData := s.clickedData.erase filepath }
  else
    { s with stored := some filepath, clickedData := [filepath] }

/-- `DataContainerBrowser._on_click_file(filename)`: fetch
`self.data_container[filename]` (the current container), catching exactly
`(KeyError, IOError)`. -/
def dcOnClickFileInner (s : DCState) (filename : String) : DCState × Option PyErr :=
  let filepath := pathJoin s.dcPath filename
  match dcGet s.currentDC filename with
  | .error PyErr.keyError | .error PyErr.ioError => (dcClickFileUpdate s filepath, none)
  | .error e => (s, some e)
  | .ok _ => (dcClickFileUpdate s filepath, none)

/-- `DataContainerBrowser.data`: when a path is stored in `self._data`, the
ROOT container is indexed with it (`self._data_container[self._data]`,
which may itself raise); else `None`. -/
def DCState.data (s : DCState) : Option (Except PyErr DCValue) :=
  s.stored.map (fun p => dcGet s.root p)

/-- The outcome of invoking a guarded user-event handler: the final busy
flag, the final wrapped state, the exception that escaped (if any) and
whether the wrapped operation actually ran. -/
structure GuardRun (σ : Type) where
  busy : Bool
  state : σ
  raised : Option PyErr
  executed : Bool

/-- `_BusyCheck._decorator_function` (src/pyiron_gui/utils/decorators.py):
`if self._busy_check(): return` rejects re-entrant calls; otherwise the
guard is taken, the wrapped function runs inside `try`, and the `finally`
block releases the guard on both the normal and the raising exit. -/
def decoratedCall {σ : Type} (f : σ → σ × Option PyErr) (busy : Bool) (s : σ) : GuardRun σ :=
  if busy then { busy := true, state := s, raised := none, executed := false }
  else
    let r := f s
    { busy := false, state := r.fst, raised := r.snd, executed := true }

/-- The inline handler pattern of the browsers (`click_option_button`,
`on_click`, `on_click_group`, `on_click_file` in
`ProjectBrowser._update_optionbox` / `_update_pathbox` / `_update_filebox`
and their `DataContainerBrowser` twins): `if self._busy_check(): return`,
run the operation, then `self._busy_check(False)` — the release is only
reached on normal return, so a raising operation leaves the guard held. -/
def inlineCall {σ : Type} (f : σ → σ × Option PyErr) (busy : Bool) (s : σ) : GuardRun σ :=
  if busy then { busy := true, state := s, raised := none, executed := false }
  else
    let r := f s
    match r.snd with
    | none => { busy := false, state := r.fst, raised := none, executed := true }
    | some e => { busy := true, state := r.fst, raised := some e, executed := true }

/-- A numpy array: its shape and its element function over multi-indices
(indices here are taken as natural positions; the widget's index fields
default to 0). -/
structure NpArray where
  shape : List Nat
  data : List Nat → Int

/-- `ndarray.ndim`. -/
def NpArray.ndim (a : NpArray) : Nat := a.shape.length

/-- One entry of the index tuple `slc` built by `NumpyWidget._plot_array`:
`slice(None)` for a plotted axis, a fixed index otherwise. -/
inductive Slc where
  | all : Slc
  | fixed : Nat → Slc
deriving DecidableEq

/-- Whether the entry is `slice(None)`. -/
def Slc.isAll : Slc → Bool
  | .all => true
  | .fixed _ => false

/-- The loop `for index in range(val.ndim)` of `_plot_array` over the
remaining axis indices, with the running counter `i` into the fixed-index
widget list: a selected axis contributes `slice(None)`, any other axis
consumes the next fixed-index value. -/
def buildSlcAux (dims idxs : List Nat) : List Nat → Nat → List Slc
  | [], _ => []
  | index :: rest, i =>
      if index ∈ dims then Slc.all :: buildSlcAux dims idxs rest i
      else Slc.fixed (idxs.getD i 0) :: buildSlcAux dims idxs rest (i + 1)

/-- The full index tuple built by `_plot_array` for an `ndim`-dimensional
array from the dimension selection `dims` and the fixed-index values
`idxs`. -/
def buildSlc (ndim : Nat) (dims idxs : List Nat) : List Slc :=
  buildSlcAux dims idxs (List.range ndim) 0

/-- Numpy indexing `val[tuple(slc)]`, coordinate side: the sliced axes
consume the coordinates of the result array in order; the fixed axes use
their fixed index. -/
def mergeCoords : List Slc → List Nat → List Nat
  | [], _ => []
  | Slc.all :: rest, c :: cs => c :: mergeCoords rest cs
  | Slc.all :: rest, [] => 0 :: mergeCoords rest []
  | Slc.fixed v :: rest, cs => v :: mergeCoords rest cs

/-- Numpy indexing `val[tuple(slc)]`, shape side: walk the index tuple and
the source shape in lockstep; a sliced axis keeps its size, a fixed axis
is consumed without contributing. -/
def slcShape : List Slc → List Nat → List Nat
  | [], _ => []
  | Slc.all :: rest, n :: ns => n :: slcShape rest ns
  | Slc.all :: rest, [] => 0 :: slcShape rest []
  | Slc.fixed _ :: rest, _ :: ns => slcShape rest ns
  | Slc.fixed _ :: rest, [] => slcShape rest []

/-- Numpy indexing `val[tuple(slc)]`: the result keeps the sizes of the
sliced axes in order; its element at `cs` is the source element at the
merged coordinates. -/
def applySlc (a : NpArray) (slc : List Slc) : NpArray :=
  { shape := slcShape slc a.shape,
    data := fun cs => a.data (mergeCoords slc cs) }

/-- The outcome of `NumpyWidget._plot_array`: either the plotted curve
(the array handed to `ax.plot`) or the printed configuration error (the
function returns without plotting). -/
inductive PlotResult where
  | plotted : NpArray → PlotResult
  | configError : String → PlotResult

/-- The error printed when the dimension selection is not exactly two. -/
def msgDimsError : String := "Error: You need to select exactly two dimensions."

/-- `NumpyWidget._plot_array` (src/pyiron_gui/wrapper/wrapper.py, identical
copy in project_browser.py): 1-D arrays are plotted directly; a 2-D array
with a single row is plotted as `val[0]`; for `ndim >= 3` without plot
options the default slice `val[:, :, 0, ..., 0]` is plotted; with options,
a dimension selection of length other than two prints the error and
returns, otherwise the built index tuple is applied and plotted. -/
def plotArray (a : NpArray) (opts : Option (List Nat × List Nat)) : PlotResult :=
  if a.ndim = 1 then .plotted a
  else if a.ndim = 2 then
    if a.shape.headD 0 = 1 then .plotted (applySlc a [Slc.fixed 0, Slc.all])
    else .plotted a
  else
    match opts with
    | none =>
        .plotted (applySlc a (Slc.all :: Slc.all :: List.replicate (a.ndim - 2) (Slc.fixed 0)))
    | some (dims, idxs) =>
        if dims.length ≠ 2 then .configError msgDimsError
        else .plotted (applySlc a (buildSlc a.ndim dims idxs))

/-- How many of the two selected axes `d1 < d2` lie strictly below axis
`k`. -/
def selCountBelow (d1 d2 k : Nat) : Nat :=
  (if d1 < k then 1 else 0) + (if d2 < k then 1 else 0)

/-- Direct indexing, coordinate of one axis `k`, following the spec's
words: `c1` on axis `d1`, `c2` on axis `d2`, and on every other axis the
fixed index supplied for it (the `j`-th unselected axis gets the `j`-th
fixed value). -/
def dirCoordAt (d1 d2 : Nat) (idxs : List Nat) (c1 c2 k : Nat) : Nat :=
  if k = d1 then c1
  else if k = d2 then c2
  else idxs.getD (k - selCountBelow d1 d2 k) 0

/-- Direct indexing, following the spec's words: the full source
coordinates for result coordinates `(c1, c2)`. -/
def directCoords (ndim d1 d2 c1 c2 : Nat) (idxs : List Nat) : List Nat :=
  (List.range ndim).map (dirCoordAt d1 d2 idxs c1 c2)

/-- The 2-D slice obtained by directly indexing the array with the fixed
values, following the spec's words (the comparison target for the plotted
curve). -/
def directSlice (a : NpArray) (d1 d2 : Nat) (idxs : List Nat) : NpArray :=
  { shape := [a.shape.getD d1 0, a.shape.getD d2 0],
    data := fun cs => a.data (directCoords a.ndim d1 d2 (cs.getD 0 0) (cs.getD 1 0) idxs) }

/-- Modelled from the spec: `select_leaf(name)` (spec section 4.2): the
same name toggles the selection off; otherwise a successful fetch of a
terminal value selects it and any failure leaves the selection cleared. -/
def NavEngine.select_leaf (s : NavEngine) (name : String) : NavEngine :=
  if s.selected = some name then { s with selected := none }
  else
    match s.current.get name with
    | some (DCValue.leaf _) => { s with selected := some name }
    | _ => { s with selected := none }

/-- A user-triggered `enter_group` click: on failure the error is only
reported and the engine keeps its state. -/
def NavEngine.tryEnter (s : NavEngine) (name : String) : NavEngine :=
  match s.enter_group name with
  | .ok t => t
  | .error _ => s

/-- Group-name constants for the concrete navigation scenarios. -/
def nmA : String := "A"

def nmB : String := "B"

def nmB1 : String := "B1"

def nmC : String := "C"

def nmX : String := "x"

/-- The sub-container `B` of the demo tree. -/
def dB : DCValue := DCValue.group [(("b"), DCValue.leaf 0)]

/-- The sub-container `C` of the demo tree. -/
def dC : DCValue := DCValue.group [(("c"), DCValue.leaf 1)]

/-- The sub-container `A` of the demo tree, holding groups `B` and `C` and
a leaf `x`. -/
def dA : DCValue := DCValue.group [(("B"), dB), (("C"), dC), (("x"), DCValue.leaf 7)]

/-- The root of the demo tree for the navigation scenarios. -/
def dR : DCValue := DCValue.group [(("A"), dA), (("r"), DCValue.leaf 9)]

/-- The navigation run of claim C1: open the root, enter `A`, enter `B`
(history `[R, A, B]`, cursor on `B`), go back, then enter `C`. -/
def c1Nav : Except NavError NavEngine :=
  ((((NavEngine.start dR).enter_group nmA).bind (fun s => s.enter_group nmB)).bind
      NavEngine.go_back).bind (fun s => s.enter_group nmC)

/-- The state of the claim C2 counterexample, reached by entering `A` from
the root and selecting the leaf `x`: history `[R, A]`, cursor 1, leaf `x`
selected. -/
def c2State : NavEngine := ((NavEngine.start dR).tryEnter nmA).select_leaf nmX

/-- A leaf-like fetched value used as file payload in the browser
scenarios. -/
def pvPayload (p : String) : PyVal :=
  PyVal.obj p (some []) (Except.error PyErr.attributeError) []

/-- A fresh `ProjectBrowser` state over a given project value. -/
def pbStart (proj : PyVal) : PBState :=
  { project := proj, pathStringBox := "", clickedFiles := [], stored := none,
    messages := [], fixPath := false, busy := false }

/-- The project of the claim C3 counterexample: fetching `bad` raises
`KeyError`, fetching `nope` raises `ValueError`. -/
def c3Proj : PyVal :=
  PyVal.obj ("/proj") (some []) (Except.error PyErr.attributeError)
    [(("bad"), Except.error PyErr.keyError),
     (("nope"), Except.error PyErr.valueError)]

/-- The browser state of the claim C3 counterexample and witness. -/
def c3State : PBState := pbStart c3Proj

/-- The fetched value of the claim C4 counterexample: it looks openable
(`TYPE` among its nodes) but `to_object()` raises `ValueError`. -/
def c4Sub : PyVal :=
  PyVal.obj ("/proj/sub") (some [(("TYPE"))]) (Except.error PyErr.valueError) []

/-- The project of the claim C4 counterexample, with `sub` fetching
`c4Sub`. -/
def c4Proj : PyVal :=
  PyVal.obj ("/proj") (some []) (Except.error PyErr.attributeError)
    [(("sub"), Except.ok c4Sub)]

/-- The browser state of the claim C4 counterexample. -/
def c4State : PBState := pbStart c4Proj

/-- The sub-project entered in the claim C5 counterexample (an ordinary
group: no `TYPE` node). -/
def c5Sub : PyVal :=
  PyVal.obj ("/proj/sub") (some []) (Except.error PyErr.attributeError) []

/-- The project of the claim C5 counterexample. -/
def c5Proj : PyVal :=
  PyVal.obj ("/proj") (some []) (Except.error PyErr.attributeError)
    [(("sub"), Except.ok c5Sub)]

/-- The locked (`fix_path = True`) browser state of the claim C5
counterexample. -/
def c5State : PBState := { pbStart c5Proj with fixPath := true }

/-- The wrapped object at the current position in the claim C6
counterexample; its node `x` is fetchable. -/
def c6Inner : PyVal :=
  PyVal.obj ("/proj/job") (some []) (Except.error PyErr.attributeError)
    [(("x"), Except.ok (pvPayload ("/proj/job/x")))]

/-- The claim C6 counterexample state: the current position is a
`BaseWrapper`, nothing is selected. -/
def c6State : PBState := pbStart (PyVal.wrapped c6Inner)

/-- The claim C6 counterexample state after selecting leaf `x` once. -/
def c6Once : PBState := (pbOnClickFileInner c6State nmX).fst

/-- The claim C6 counterexample state after selecting leaf `x` twice. -/
def c6Twice : PBState := (pbOnClickFileInner c6Once nmX).fst

/-- The project of the claim C7 evaluation: `text.txt` is fetchable,
fetching `missing.dat` raises `KeyError`. -/
def c7Proj : PyVal :=
  PyVal.obj ("/proj") (some []) (Except.error PyErr.attributeError)
    [(("text.txt"), Except.ok (pvPayload ("/proj/text.txt"))),
     (("missing.dat"), Except.error PyErr.keyError)]

/-- The claim C7 state with no selection. -/
def c7State : PBState := pbStart c7Proj

/-- The stale stored `FileData` of the second claim C7 scenario. -/
def c7OldFd : FileDataM :=
  { file := ("text.txt"), filepath := ("/proj/text.txt"),
    payload := pvPayload ("/proj/text.txt") }

/-- The claim C7 state in which `text.txt` was previously selected. -/
def c7State2 : PBState :=
  { c7State with stored := some c7OldFd, clickedFiles := [(("/proj/text.txt"))] }

/-- A fresh `DataContainerBrowser` state over a given root container. -/
def dcStart (root : DCValue) : DCState :=
  { root := root, currentDC := root, dcPath := "", pathStringBox := "",
    clickedData := [], stored := none, messages := [], busy := false }

/-- A `DataContainerBrowser` state over the test container in which the
node `A` is selected. -/
def dcSelState : DCState :=
  { dcStart dcTestContainer with clickedData := [(("A"))], stored := some (("A")) }

/-- The demo rank-3 array of the claim C10 witness: shape `[2, 2, 2]`,
element `[i, j, k]` encoded as `4*i + 2*j + k`. -/
def npDemo : NpArray :=
  { shape := [2, 2, 2],
    data := fun cs => 4 * (cs.getD 0 0 : Int) + 2 * (cs.getD 1 0 : Int) + (cs.getD 2 0 : Int) }

/-- Claim C1: entering a group while the history cursor is not at the last
entry first truncates the history to the entries up to and including the
cursor and then appends the new position: from history `[R, A, B]` with the
cursor on `B`, `go_back` followed by `enter_group("C")` yields history
`[R, A, C]` with the cursor on `C`; a subsequent `go_forward` fails with
`AtEnd` and the current position stays `C`. -/
theorem claim_C1_truncate_on_branch :
    c1Nav = Except.ok { history := { entries := [dR, dA, dC], cursor := 2 },
                        selected := none, locked := false }
    ∧ c1Nav.map NavEngine.current = Except.ok dC
    ∧ c1Nav.bind NavEngine.go_forward = Except.error NavError.atEnd
    ∧ c1Nav.map (fun s => s.stepForward.current) = Except.ok dC :=
  ⟨rfl, rfl, rfl, rfl⟩

/-- Claim C2, counterexample: with the leaf `x` selected, `go_back`
immediately followed by `go_forward` (no intervening group entry,
selection or record) does not restore the pair (current position,
selected leaf) — both navigation operations clear the selection. -/
theorem claim_C2_counterexample :
    ¬ (c2State.stepBack.stepForward.current = c2State.current
       ∧ c2State.stepBack.stepForward.selected = c2State.selected) := by
  intro h
  have h2 := h.2
  rw [show c2State.stepBack.stepForward.selected = none from rfl,
      show c2State.selected = some nmX from rfl] at h2
  exact Option.noConfusion h2

/-- Claim C2, amended: when `go_back` succeeds (the cursor is positive and
within the history) and no leaf is selected, `go_back` immediately
followed by `go_forward` restores the full engine state; since both
operations clear the selection, the pair (current position, selected
leaf) is preserved exactly when no leaf was selected. -/
theorem claim_C2_back_forward (s : NavEngine) (hl : s.locked = false)
    (hs : s.selected = none) (h0 : 0 < s.history.cursor)
    (h1 : s.history.cursor < s.history.entries.length) :
    s.stepBack.stepForward = s := by
  obtain ⟨⟨entries, cursor⟩, sel, locked⟩ := s
  simp only at hl hs h0 h1
  subst hl hs
  have hc0 : ¬ cursor = 0 := by omega
  have hne : ¬ (cursor - 1 = entries.length - 1) := by omega
  have hadd : cursor - 1 + 1 = cursor := by omega
  simp [NavEngine.stepBack, NavEngine.stepForward, NavEngine.go_back, NavEngine.go_forward,
        History.go_back, History.go_forward, hc0, hne, hadd]

/-- Claim C2, witness: the amended round trip at the concrete engine that
entered `A` from the demo root (history `[R, A]`, cursor 1, no
selection). -/
theorem claim_C2_witness :
    (((NavEngine.start dR).tryEnter nmA).locked = false
      ∧ ((NavEngine.start dR).tryEnter nmA).selected = none
      ∧ 0 < ((NavEngine.start dR).tryEnter nmA).history.cursor
      ∧ ((NavEngine.start dR).tryEnter nmA).history.cursor
          < ((NavEngine.start dR).tryEnter nmA).history.entries.length)
    ∧ ((NavEngine.start dR).tryEnter nmA).stepBack.stepForward
        = (NavEngine.start dR).tryEnter nmA :=
  ⟨⟨rfl, rfl, by decide, by decide⟩,
   claim_C2_back_forward ((NavEngine.start dR).tryEnter nmA) rfl rfl (by decide) (by decide)⟩

/-- Claim C9, counterexample: on the spec's container
`{"A": 10, "B": {"B1": {...}}, "C": []}` the root listing is not
`groups = ["B"]`, `nodes = ["A", "C"]`: the empty-collection entry `"C"`
is itself an (empty) sub-container, as pinned by the repository's test
data (`TEST_DATA_CONTAINER`, where `"C": []` is asserted to be a
group). -/
theorem claim_C9_counterexample :
    ¬ (dcSpecContainer.list_groups = [("B")]
       ∧ dcSpecContainer.list_nodes = [("A"), ("C")]) := by
  decide

/-- Claim C9, amended: on the spec's container the empty-collection entry
`"C"` is classified as a group: `list_groups()` returns `["B", "C"]` and
`list_nodes()` returns `["A"]`; after entering `"B"` the group listing is
exactly `["B1"]`; on the repository's test container the root listing is
`groups = ["B", "C", "E"]`, `nodes = ["A", "D"]`, matching the test
assertions. -/
theorem claim_C9_classification :
    dcSpecContainer.list_groups = [("B"), ("C")]
    ∧ dcSpecContainer.list_nodes = [("A")]
    ∧ ((NavEngine.start dcSpecContainer).tryEnter nmB).current.list_groups = [("B1")]
    ∧ dcTestContainer.list_groups = [("B"), ("C"), ("E")]
    ∧ dcTestContainer.list_nodes = [("A"), ("D")] := by
  refine ⟨by decide, by decide, ?_, by decide, by decide⟩
  rfl

/-- Claim C3, counterexample: a fetch that raises `KeyError` during a
set-path attempt is not caught by `ProjectBrowser._update_project_worker`
(whose handler lists only `(ValueError, AttributeError)`): the exception
propagates as a crash instead of being reported as a displayable
message. -/
theorem claim_C3_counterexample :
    (pbUpdateProjectWorker c3State ("bad")).snd = some PyErr.keyError
    ∧ (pbUpdateProjectWorker c3State ("bad")).fst = c3State :=
  ⟨rfl, rfl⟩

/-- Claim C3, amended: a set-path/enter attempt whose fetch raises a
`ValueError`- or `AttributeError`-class error (plus `KeyError` in the
`DataContainerBrowser`) leaves the current position and path exactly
unchanged, resets the path box, and only prints "No valid path"; error
classes outside the respective handler list (e.g. `KeyError` in
`ProjectBrowser`) propagate. -/
theorem claim_C3_recovered :
    (∀ (s : PBState) (rel : String),
        (pbTryBody s.project rel = Except.error PyErr.valueError
          ∨ pbTryBody s.project rel = Except.error PyErr.attributeError) →
        pbUpdateProjectWorker s rel =
          ({ s with pathStringBox := "", messages := s.messages ++ [msgNoValidPath] }, none))
    ∧ (∀ (s : DCState) (path : String) (e : PyErr),
        ¬ (path = ("/") ∨ path = "") →
        dcTryBody s.root (if strStartsWith path ("/") then strDrop path 1 else path) = Except.error e →
        (e = PyErr.valueError ∨ e = PyErr.attributeError ∨ e = PyErr.keyError) →
        dcUpdateProjectWorker s path =
          ({ s with pathStringBox := "", messages := s.messages ++ [msgNoValidPath] }, none)) := by
  constructor
  · intro s rel h
    rcases h with h | h <;> simp [pbUpdateProjectWorker, h]
  · intro s path e hp h he
    simp only [dcUpdateProjectWorker, if_neg hp]
    rcases he with rfl | rfl | rfl <;> simp [h]

/-- Claim C3, witness: the amended recovery at a concrete `ValueError`
fetch in the `ProjectBrowser` and at a concrete missing key (`KeyError`)
in the `DataContainerBrowser`. -/
theorem claim_C3_witness :
    ((pbTryBody c3State.project ("nope") = Except.error PyErr.valueError
        ∨ pbTryBody c3State.project ("nope") = Except.error PyErr.attributeError)
      ∧ pbUpdateProjectWorker c3State ("nope")
          = ({ c3State with
                pathStringBox := "",
                messages := c3State.messages ++ [msgNoValidPath] }, none))
    ∧ (¬ ((("Z") : String) = ("/") ∨ (("Z") : String) = "")
      ∧ dcTryBody (dcStart dcTestContainer).root
          (if strStartsWith ("Z") ("/") then strDrop ("Z") 1 else ("Z"))
          = Except.error PyErr.keyError
      ∧ dcUpdateProjectWorker (dcStart dcTestContainer) ("Z")
          = ({ dcStart dcTestContainer with
                pathStringBox := "",
                messages := (dcStart dcTestContainer).messages ++ [msgNoValidPath] }, none)) :=
  ⟨⟨Or.inl rfl, claim_C3_recovered.1 c3State ("nope") (Or.inl rfl)⟩,
   ⟨by decide, rfl,
    claim_C3_recovered.2 (dcStart dcTestContainer) ("Z") PyErr.keyError (by decide) rfl
      (Or.inr (Or.inr rfl))⟩⟩

/-- Claim C4, counterexample: when the fetched value looks openable
(`TYPE` among its nodes) and wrapping raises `ValueError`, the old current
position does not remain unchanged — the raw fetched value becomes the new
position (`/proj` becomes `/proj/sub`) and no error is surfaced. -/
theorem claim_C4_counterexample :
    (pbUpdateProjectWorker c4State ("sub")).fst.path = ("/proj/sub")
    ∧ (pbUpdateProjectWorker c4State ("sub")).fst.messages = ([] : List String)
    ∧ ¬ ((pbUpdateProjectWorker c4State ("sub")).fst.path = c4State.path) :=
  ⟨rfl, rfl, by decide⟩

/-- Claim C4, amended: when the fetched value's `list_nodes()` contains
`TYPE` and the wrap attempt raises `ValueError`, the exception is
swallowed (`except ValueError: pass`) and navigation still proceeds: the
raw, unwrapped fetched value becomes the new current position, silently
and without any surfaced error. -/
theorem claim_C4_wrap_failure (s : PBState) (rel : String) (np : PyVal)
    (nodes : List String)
    (h1 : s.project.getitem rel = Except.ok np)
    (h2 : np.listNodesAttr = some nodes)
    (h3 : ("TYPE") ∈ nodes)
    (h4 : np.toObject = Except.error PyErr.valueError) :
    pbUpdateProjectWorker s rel = ({ s with project := np }, none) := by
  cases np with
  | pynone => simp [PyVal.listNodesAttr] at h2
  | obj p ns t items =>
      simp only [PyVal.listNodesAttr] at h2
      simp only [PyVal.toObject] at h4
      subst h2
      subst h4
      simp [pbUpdateProjectWorker, pbTryBody, PyVal.listNodesAttr, PyVal.toObject, h1, h3]
  | wrapped inner =>
      simp [PyVal.toObject] at h4

/-- Claim C4, witness: the amended behavior at the concrete state whose
fetched `sub` carries a `TYPE` node and whose `to_object()` raises
`ValueError`. -/
theorem claim_C4_witness :
    (c4State.project.getitem ("sub") = Except.ok c4Sub
      ∧ c4Sub.listNodesAttr = some [(("TYPE"))]
      ∧ ("TYPE") ∈ [(("TYPE"))]
      ∧ c4Sub.toObject = Except.error PyErr.valueError)
    ∧ pbUpdateProjectWorker c4State ("sub") = ({ c4State with project := c4Sub }, none) :=
  ⟨⟨rfl, rfl, by decide, rfl⟩,
   claim_C4_wrap_failure c4State ("sub") c4Sub [(("TYPE"))] rfl rfl (by decide) rfl⟩

/-- Claim C5, counterexample: with navigation locked
(`fix_path = True`), entering a child group from the listing still
mutates the position: the filebox directory handler performs no
`fix_path` check, so the current path changes from `/proj` to
`/proj/sub`. -/
theorem claim_C5_counterexample :
    c5State.fixPath = true
    ∧ (pbOnClickGroup c5State ("sub")).fst.path = ("/proj/sub")
    ∧ ¬ ((pbOnClickGroup c5State ("sub")).fst.path = c5State.path) :=
  ⟨rfl, rfl, by decide⟩

/-- Claim C5, amended: with `fix_path = True` the `Set Path` button
returns without any state change and every path-box button (home and path
segments) is generated disabled; but the filebox group-entry handler is
not guarded at all: independently of `fix_path`, clicking a child group
navigates and replaces the current position. -/
theorem claim_C5_lock_partial :
    (∀ s : PBState, s.fixPath = true → pbClickSetPath s = (s, none))
    ∧ (∀ (s : PBState) (pathList : List String) (lenRoot : Nat) (b : PathButton),
        s.fixPath = true → b ∈ pbGenPathboxButtons s pathList lenRoot →
        b.disabled = true)
    ∧ (∀ (s : PBState) (dirname : String) (np : PyVal) (nodes : List String),
        s.busy = false →
        relpath (pathJoin s.path dirname) s.path ≠ (".") →
        s.project.getitem (relpath (pathJoin s.path dirname) s.path) = Except.ok np →
        np.listNodesAttr = some nodes →
        ¬ (("TYPE") ∈ nodes) →
        (pbOnClickGroup s dirname).fst.project = np
          ∧ (pbOnClickGroup s dirname).snd = none) := by
  refine ⟨?_, ?_, ?_⟩
  · intro s h
    simp [pbClickSetPath, h]
  · intro s pathList lenRoot b hfix hb
    simp only [pbGenPathboxButtons, List.mem_cons, List.mem_map] at hb
    rcases hb with rfl | ⟨p, _, rfl⟩
    · exact hfix
    · simp [hfix]
  · intro s dirname np nodes hb hrel h1 h2 h3
    simp only [PBState.path] at hrel h1
    cases np with
    | pynone => simp [PyVal.listNodesAttr] at h2
    | obj p ns t items =>
        simp only [PyVal.listNodesAttr] at h2
        subst h2
        constructor <;>
          simp [pbOnClickGroup, pbUpdateProject, pbUpdateProjectWorker, pbTryBody,
                PBState.path, PyVal.listNodesAttr, PyVal.toObject, hb, hrel, h1, h3]
    | wrapped inner =>
        simp only [PyVal.listNodesAttr, Option.some.injEq] at h2
        subst h2
        constructor <;>
          simp [pbOnClickGroup, pbUpdateProject, pbUpdateProjectWorker, pbTryBody,
                PBState.path, PyVal.listNodesAttr, PyVal.toObject, hb, hrel, h1, h3]

/-- Claim C5, witness: the amended behavior at the concrete locked
browser: `Set Path` is inert, the generated home button is disabled, and
a group click still navigates to `/proj/sub`. -/
theorem claim_C5_witness :
    (c5State.fixPath = true ∧ pbClickSetPath c5State = (c5State, none))
    ∧ (({ desc := ("home"), disabled := true } : PathButton)
          ∈ pbGenPathboxButtons c5State [(("/proj"))] 6
        ∧ ({ desc := ("home"), disabled := true } : PathButton).disabled = true)
    ∧ ((pbOnClickGroup c5State ("sub")).fst.project = c5Sub
        ∧ (pbOnClickGroup c5State ("sub")).snd = none) :=
  ⟨⟨rfl, claim_C5_lock_partial.1 c5State rfl⟩,
   ⟨by decide,
    claim_C5_lock_partial.2.1 c5State [(("/proj"))] 6
      { desc := ("home"), disabled := true } rfl (by decide)⟩,
   claim_C5_lock_partial.2.2 c5State ("sub") c5Sub [] rfl (by decide) rfl rfl (by decide)⟩

/-- Helper: one `_on_click_file` selection update keeps the clicked list
at length at most one. -/
theorem pbClickFileUpdate_len (s : PBState) (f fp : String) (data : Option PyVal)
    (h : s.clickedFiles.length ≤ 1) :
    (pbClickFileUpdate s f fp data).clickedFiles.length ≤ 1 := by
  unfold pbClickFileUpdate
  split
  · exact le_trans (List.Sublist.length_le (List.erase_sublist _ _)) h
  · cases data <;> simp

/-- Claim C6, counterexample: selecting the leaf `x` twice from a position
that is a wrapped object leaves no leaf selected, but the exposed `data`
is not `None`: with `self._data` cleared, the `data` property falls back
to the wrapped object. -/
theorem claim_C6_counterexample :
    c6Twice.clickedFiles = [] ∧ c6Twice.stored = none
    ∧ ¬ (c6Twice.data = none) := by
  refine ⟨rfl, rfl, ?_⟩
  intro h
  rw [show c6Twice.data = some (BrowserData.rawObject c6Inner) from rfl] at h
  exact Option.noConfusion h

/-- Claim C6, amended: the single-selection invariant holds (every click
leaves at most one clicked leaf, and selecting a new leaf replaces the
previous selection by the new single path); selecting the selected leaf
again clears the selection and the stored data, and the exposed `data` is
then `None` provided the current position is not a wrapped object (for
`ProjectBrowser`; unconditionally for `DataContainerBrowser`) — when the
position is a `BaseWrapper`, `data` falls back to the wrapped object. -/
theorem claim_C6_selection :
    (∀ (s : PBState) (f : String),
        s.clickedFiles.length ≤ 1 →
        (pbOnClickFileInner s f).fst.clickedFiles.length ≤ 1)
    ∧ (∀ (s : PBState) (f : String),
        pathJoin s.path f ∉ s.clickedFiles →
        (∀ e, s.project.getitem f = Except.error e → e = PyErr.keyError ∨ e = PyErr.ioError) →
        (pbOnClickFileInner s f).fst.clickedFiles = [pathJoin s.path f])
    ∧ (∀ (s : PBState) (f : String),
        s.clickedFiles = [pathJoin s.path f] →
        (∀ e, s.project.getitem f = Except.error e → e = PyErr.keyError ∨ e = PyErr.ioError) →
        (pbOnClickFileInner s f).fst.clickedFiles = []
          ∧ (pbOnClickFileInner s f).fst.stored = none
          ∧ (s.project.isWrapped = false → (pbOnClickFileInner s f).fst.data = none))
    ∧ (∀ (s : DCState) (f : String),
        s.clickedData = [pathJoin s.dcPath f] →
        (∀ e, dcGet s.currentDC f = Except.error e → e = PyErr.keyError ∨ e = PyErr.ioError) →
        (dcOnClickFileInner s f).fst.clickedData = []
          ∧ (dcOnClickFileInner s f).fst.stored = none
          ∧ (dcOnClickFileInner s f).fst.data = none) := by
  refine ⟨?_, ?_, ?_, ?_⟩
  · intro s f h
    unfold pbOnClickFileInner
    cases hg : s.project.getitem f with
    | ok d => simpa using pbClickFileUpdate_len s f (pathJoin s.path f) (some d) h
    | error e =>
        cases e <;> simp_all <;>
          simpa using pbClickFileUpdate_len s f (pathJoin s.path f) none h
  · intro s f hm hrec
    unfold pbOnClickFileInner
    cases hg : s.project.getitem f with
    | ok d => simp [pbClickFileUpdate, hm]
    | error e =>
        rcases hrec e hg with rfl | rfl <;> simp [pbClickFileUpdate, hm]
  · intro s f hsel hrec
    have hmem : pathJoin s.path f ∈ s.clickedFiles := by
      rw [hsel]; exact List.mem_singleton.mpr rfl
    have hkey :
        pbClickFileUpdate s f (pathJoin s.path f) none
            = { s with stored := none, clickedFiles := s.clickedFiles.erase (pathJoin s.path f) }
          ∧ ∀ d, pbClickFileUpdate s f (pathJoin s.path f) (some d)
            = { s with stored := none, clickedFiles := s.clickedFiles.erase (pathJoin s.path f) } := by
      constructor
      · simp [pbClickFileUpdate, hmem]
      · intro d; simp [pbClickFileUpdate, hmem]
    have herase : s.clickedFiles.erase (pathJoin s.path f) = [] := by
      rw [hsel]; exact List.erase_cons_head _ _
    have hfin :
        (pbOnClickFileInner s f).fst
          = { s with stored := none, clickedFiles := s.clickedFiles.erase (pathJoin s.path f) } := by
      unfold pbOnClickFileInner
      cases hg : s.project.getitem f with
      | ok d => simpa using hkey.2 d
      | error e =>
          rcases hrec e hg with rfl | rfl <;> simpa using hkey.1
    refine ⟨by rw [hfin]; exact herase, by rw [hfin], ?_⟩
    intro hw
    rw [hfin]
    cases hp : s.project with
    | pynone => simp [PBState.data]
    | obj p ns t items => simp [PBState.data]
    | wrapped inner => rw [hp] at hw; simp [PyVal.isWrapped] at hw
  · intro s f hsel hrec
    have hmem : pathJoin s.dcPath f ∈ s.clickedData := by
      rw [hsel]; exact List.mem_singleton.mpr rfl
    have herase : s.clickedData.erase (pathJoin s.dcPath f) = [] := by
      rw [hsel]; exact List.erase_cons_head _ _
    have hfin :
        (dcOnClickFileInner s f).fst
          = { s with stored := none, clickedData := s.clickedData.erase (pathJoin s.dcPath f) } := by
      unfold dcOnClickFileInner
      cases hg : dcGet s.currentDC f with
      | ok d => simp [dcClickFileUpdate, hmem]
      | error e =>
          rcases hrec e hg with rfl | rfl <;> simp [dcClickFileUpdate, hmem]
    refine ⟨by rw [hfin]; exact herase, by rw [hfin], ?_⟩
    rw [hfin]
    simp [DCState.data]

/-- Claim C6, witness: the amended selection laws at the concrete
browsers: a fresh click selects `text.txt`, re-clicking it clears the
selection with `data = None` on the plain project, and the
`DataContainerBrowser` toggle clears its selection and data. -/
theorem claim_C6_witness :
    (c7State.clickedFiles.length ≤ 1
      ∧ (pbOnClickFileInner c7State (("text.txt"))).fst.clickedFiles.length ≤ 1)
    ∧ ((pathJoin c7State.path (("text.txt")) ∉ c7State.clickedFiles)
      ∧ (pbOnClickFileInner c7State (("text.txt"))).fst.clickedFiles
          = [pathJoin c7State.path (("text.txt"))])
    ∧ (c7State2.clickedFiles = [pathJoin c7State2.path (("text.txt"))]
      ∧ (pbOnClickFileInner c7State2 (("text.txt"))).fst.clickedFiles = []
      ∧ (pbOnClickFileInner c7State2 (("text.txt"))).fst.stored = none
      ∧ (c7State2.project.isWrapped = false
          → (pbOnClickFileInner c7State2 (("text.txt"))).fst.data = none))
    ∧ (dcSelState.clickedData = [pathJoin dcSelState.dcPath (("A"))]
      ∧ (dcOnClickFileInner dcSelState (("A"))).fst.clickedData = []
      ∧ (dcOnClickFileInner dcSelState (("A"))).fst.stored = none
      ∧ (dcOnClickFileInner dcSelState (("A"))).fst.data = none) :=
  ⟨⟨by decide,
    claim_C6_selection.1 c7State (("text.txt")) (by decide)⟩,
   ⟨by decide,
    claim_C6_selection.2.1 c7State (("text.txt")) (by decide)
      (fun e h => Except.noConfusion h)⟩,
   ⟨rfl,
    claim_C6_selection.2.2.1 c7State2 (("text.txt")) rfl
      (fun e h => Except.noConfusion h)⟩,
   ⟨rfl,
    claim_C6_selection.2.2.2 dcSelState (("A")) rfl
      (fun e h => Except.noConfusion h)⟩⟩

/-- Claim C7: evaluating `ProjectBrowser._on_click_file` at a leaf whose
fetch raises `KeyError`: the error is non-fatal, but contrary to the
claim (and to the repository's own test for this scenario) the selection
is not left cleared — the unfetchable path becomes the sole clicked entry
and a previously stored `FileData` survives, so the exposed `data` is
stale rather than `None`. -/
theorem claim_C7_code_eval :
    (pbOnClickFileInner c7State (("missing.dat"))).snd = none
    ∧ (pbOnClickFileInner c7State (("missing.dat"))).fst.clickedFiles
        = [(("/proj/missing.dat"))]
    ∧ (pbOnClickFileInner c7State (("missing.dat"))).fst.stored = none
    ∧ (pbOnClickFileInner c7State2 (("missing.dat"))).fst.clickedFiles
        = [(("/proj/missing.dat"))]
    ∧ (pbOnClickFileInner c7State2 (("missing.dat"))).fst.stored = some c7OldFd
    ∧ (pbOnClickFileInner c7State2 (("missing.dat"))).fst.data
        = some (BrowserData.fileData c7OldFd) :=
  ⟨rfl, rfl, rfl, rfl, rfl, rfl⟩

/-- Claim C8, counterexample: the browsers' inline `_busy_check` handler
pattern does not release the guard on the raising exit path: when the
wrapped operation raises, the busy flag stays `True`. -/
theorem claim_C8_counterexample :
    (inlineCall (fun n : Nat => (n + 1, some PyErr.valueError)) false 0).busy = true
    ∧ ¬ ((inlineCall (fun n : Nat => (n + 1, some PyErr.valueError)) false 0).busy = false) :=
  ⟨rfl, by decide⟩

/-- Claim C8, amended: both guard patterns reject a second event arriving
while busy as a strict no-op; the `_BusyCheck._decorator_function` wrapper
releases the guard on every exit path (`finally`), propagating the
operation's outcome; the browsers' inline handlers release the guard only
on normal return — a raising operation leaves the guard held. -/
theorem claim_C8_guard :
    (∀ (σ : Type) (f : σ → σ × Option PyErr) (s : σ),
        decoratedCall f true s = { busy := true, state := s, raised := none, executed := false }
          ∧ inlineCall f true s = { busy := true, state := s, raised := none, executed := false })
    ∧ (∀ (σ : Type) (f : σ → σ × Option PyErr) (s : σ),
        (decoratedCall f false s).busy = false
          ∧ (decoratedCall f false s).state = (f s).fst
          ∧ (decoratedCall f false s).raised = (f s).snd)
    ∧ (∀ (σ : Type) (f : σ → σ × Option PyErr) (s : σ),
        (f s).snd = none →
        inlineCall f false s
          = { busy := false, state := (f s).fst, raised := none, executed := true })
    ∧ (∀ (σ : Type) (f : σ → σ × Option PyErr) (s : σ) (e : PyErr),
        (f s).snd = some e → (inlineCall f false s).busy = true) := by
  refine ⟨?_, ?_, ?_, ?_⟩
  · intro σ f s; exact ⟨rfl, rfl⟩
  · intro σ f s; exact ⟨rfl, rfl, rfl⟩
  · intro σ f s h; simp [inlineCall, h]
  · intro σ f s e h; simp [inlineCall, h]

/-- Claim C8, witness: the amended guard laws at concrete operations: a
normally returning operation leaves the inline guard released, a raising
one leaves it held. -/
theorem claim_C8_witness :
    (((fun n : Nat => (n + 1, (none : Option PyErr))) 5).snd = none
      ∧ inlineCall (fun n : Nat => (n + 1, (none : Option PyErr))) false 5
          = { busy := false, state := 6, raised := none, executed := true })
    ∧ (((fun n : Nat => (n + 1, some PyErr.ioError)) 5).snd = some PyErr.ioError
      ∧ (inlineCall (fun n : Nat => (n + 1, some PyErr.ioError)) false 5).busy = true) :=
  ⟨⟨rfl, claim_C8_guard.2.2.1 Nat (fun n => (n + 1, none)) 5 rfl⟩,
   ⟨rfl, claim_C8_guard.2.2.2 Nat (fun n => (n + 1, some PyErr.ioError)) 5 PyErr.ioError rfl⟩⟩

/-- Helper: peel the head off a shifted range map. -/
theorem rangeShift {α : Type} (g : Nat → α) (off m : Nat) :
    (List.range (m + 1)).map (fun t => g (off + t))
      = g off :: (List.range m).map (fun t => g ((off + 1) + t)) := by
  rw [List.range_succ_eq_map, List.map_cons, List.map_map]
  refine congrArg₂ List.cons (congrArg g (by omega)) (List.map_congr_left ?_)
  intro t _
  simp only [Function.comp_apply]
  exact congrArg g (by omega)

/-- Helper: the specialisation of `rangeShift` to the identity. -/
theorem rangeShiftNat (off m : Nat) :
    (List.range (m + 1)).map (fun t => off + t)
      = off :: (List.range m).map (fun t => (off + 1) + t) :=
  rangeShift (fun k => k) off m

/-- Helper: `getD` through `tail`. -/
theorem getD_tail_shift (sh : List Nat) (k : Nat) :
    sh.getD (k + 1) 0 = sh.tail.getD k 0 := by
  cases sh <;> simp

/-- Helper: the shape of the slice built by `_plot_array` over the axis
segment starting at `off`. -/
theorem slcShapeBuild (d1 d2 : Nat) (idxs : List Nat) (hd : d1 < d2) :
    ∀ (n off i : Nat) (sh : List Nat),
      slcShape (buildSlcAux [d1, d2] idxs ((List.range n).map (fun t => off + t)) i) sh
        = ((if off ≤ d1 ∧ d1 < off + n then [sh.getD (d1 - off) 0] else [])
            ++ (if off ≤ d2 ∧ d2 < off + n then [sh.getD (d2 - off) 0] else [])) := by
  intro n
  induction n with
  | zero =>
      intro off i sh
      simp only [List.range_zero, List.map_nil, buildSlcAux, slcShape]
      rw [if_neg (show ¬ (off ≤ d1 ∧ d1 < off + 0) from by omega),
          if_neg (show ¬ (off ≤ d2 ∧ d2 < off + 0) from by omega)]
      rfl
  | succ m ih =>
      intro off i sh
      rw [rangeShiftNat off m]
      by_cases h1 : off = d1
      · subst h1
        rw [show buildSlcAux [off, d2] idxs
              (off :: (List.range m).map (fun t => (off + 1) + t)) i
              = Slc.all :: buildSlcAux [off, d2] idxs
                  ((List.range m).map (fun t => (off + 1) + t)) i from by
            simp [buildSlcAux]]
        rw [show slcShape (Slc.all :: buildSlcAux [off, d2] idxs
              ((List.range m).map (fun t => (off + 1) + t)) i) sh
              = sh.getD 0 0 :: slcShape (buildSlcAux [off, d2] idxs
                  ((List.range m).map (fun t => (off + 1) + t)) i) sh.tail from by
            cases sh <;> rfl]
        rw [ih (off + 1) i sh.tail]
        rw [if_neg (show ¬ (off + 1 ≤ off ∧ off < off + 1 + m) from by omega)]
        rw [if_pos (show off ≤ off ∧ off < off + (m + 1) from by omega)]
        have hB : (if off + 1 ≤ d2 ∧ d2 < off + 1 + m
                then [sh.tail.getD (d2 - (off + 1)) 0] else [])
            = (if off ≤ d2 ∧ d2 < off + (m + 1) then [sh.getD (d2 - off) 0] else []) := by
          by_cases h3 : off + 1 ≤ d2 ∧ d2 < off + 1 + m
          · rw [if_pos h3, if_pos (show off ≤ d2 ∧ d2 < off + (m + 1) from by omega)]
            rw [show d2 - off = (d2 - (off + 1)) + 1 from by omega, getD_tail_shift]
          · rw [if_neg h3, if_neg (show ¬ (off ≤ d2 ∧ d2 < off + (m + 1)) from by omega)]
        rw [hB]
        rw [show off - off = 0 from by omega]
        rfl
      · by_cases h2 : off = d2
        · subst h2
          rw [show buildSlcAux [d1, off] idxs
                (off :: (List.range m).map (fun t => (off + 1) + t)) i
                = Slc.all :: buildSlcAux [d1, off] idxs
                    ((List.range m).map (fun t => (off + 1) + t)) i from by
              simp [buildSlcAux]]
          rw [show slcShape (Slc.all :: buildSlcAux [d1, off] idxs
                ((List.range m).map (fun t => (off + 1) + t)) i) sh
                = sh.getD 0 0 :: slcShape (buildSlcAux [d1, off] idxs
                    ((List.range m).map (fun t => (off + 1) + t)) i) sh.tail from by
              cases sh <;> rfl]
          rw [ih (off + 1) i sh.tail]
          rw [if_neg (show ¬ (off + 1 ≤ d1 ∧ d1 < off + 1 + m) from by omega)]
          rw [if_neg (show ¬ (off + 1 ≤ off ∧ off < off + 1 + m) from by omega)]
          rw [if_neg (show ¬ (off ≤ d1 ∧ d1 < off + (m + 1)) from by omega)]
          rw [if_pos (show off ≤ off ∧ off < off + (m + 1) from by omega)]
          rw [show off - off = 0 from by omega]
          rfl
        · rw [show buildSlcAux [d1, d2] idxs
                (off :: (List.range m).map (fun t => (off + 1) + t)) i
                = Slc.fixed (idxs.getD i 0) :: buildSlcAux [d1, d2] idxs
                    ((List.range m).map (fun t => (off + 1) + t)) (i + 1) from by
              simp only [buildSlcAux]
              rw [if_neg (show ¬ (off ∈ [d1, d2]) from by simp [h1, h2])]]
          rw [show slcShape (Slc.fixed (idxs.getD i 0) :: buildSlcAux [d1, d2] idxs
                ((List.range m).map (fun t => (off + 1) + t)) (i + 1)) sh
                = slcShape (buildSlcAux [d1, d2] idxs
                    ((List.range m).map (fun t => (off + 1) + t)) (i + 1)) sh.tail from by
              cases sh <;> rfl]
          rw [ih (off + 1) (i + 1) sh.tail]
          have hA : (if off + 1 ≤ d1 ∧ d1 < off + 1 + m
                  then [sh.tail.getD (d1 - (off + 1)) 0] else [])
              = (if off ≤ d1 ∧ d1 < off + (m + 1) then [sh.getD (d1 - off) 0] else []) := by
            by_cases h3 : off + 1 ≤ d1 ∧ d1 < off + 1 + m
            · rw [if_pos h3, if_pos (show off ≤ d1 ∧ d1 < off + (m + 1) from by omega)]
              rw [show d1 - off = (d1 - (off + 1)) + 1 from by omega, getD_tail_shift]
            · rw [if_neg h3, if_neg (show ¬ (off ≤ d1 ∧ d1 < off + (m + 1)) from by omega)]
          have hB : (if off + 1 ≤ d2 ∧ d2 < off + 1 + m
                  then [sh.tail.getD (d2 - (off + 1)) 0] else [])
              = (if off ≤ d2 ∧ d2 < off + (m + 1) then [sh.getD (d2 - off) 0] else []) := by
            by_cases h3 : off + 1 ≤ d2 ∧ d2 < off + 1 + m
            · rw [if_pos h3, if_pos (show off ≤ d2 ∧ d2 < off + (m + 1) from by omega)]
              rw [show d2 - off = (d2 - (off + 1)) + 1 from by omega, getD_tail_shift]
            · rw [if_neg h3, if_neg (show ¬ (off ≤ d2 ∧ d2 < off + (m + 1)) from by omega)]
          rw [hA, hB]
/-- Helper: the coordinates produced by the slice built by `_plot_array`
over the axis segment starting at `off` agree with direct indexing. -/
theorem mergeBuild (d1 d2 : Nat) (idxs : List Nat) (c1 c2 : Nat) (hd : d1 < d2) :
    ∀ (n off : Nat),
      mergeCoords
          (buildSlcAux [d1, d2] idxs ((List.range n).map (fun t => off + t))
            (off - selCountBelow d1 d2 off))
          ([c1, c2].drop (selCountBelow d1 d2 off))
        = (List.range n).map (fun t => dirCoordAt d1 d2 idxs c1 c2 (off + t)) := by
  intro n
  induction n with
  | zero =>
      intro off
      simp [buildSlcAux, mergeCoords]
  | succ m ih =>
      intro off
      rw [rangeShiftNat off m, rangeShift (dirCoordAt d1 d2 idxs c1 c2) off m]
      by_cases h1 : off = d1
      · subst h1
        have hsc : selCountBelow off d2 off = 0 := by
          unfold selCountBelow
          split_ifs <;> omega
        have hsc1 : selCountBelow off d2 (off + 1) = 1 := by
          unfold selCountBelow
          split_ifs <;> omega
        rw [hsc]
        rw [show buildSlcAux [off, d2] idxs
              (off :: (List.range m).map (fun t => (off + 1) + t)) (off - 0)
              = Slc.all :: buildSlcAux [off, d2] idxs
                  ((List.range m).map (fun t => (off + 1) + t)) (off - 0) from by
            simp [buildSlcAux]]
        rw [show ([c1, c2].drop 0) = [c1, c2] from rfl]
        rw [show mergeCoords (Slc.all :: buildSlcAux [off, d2] idxs
              ((List.range m).map (fun t => (off + 1) + t)) (off - 0)) [c1, c2]
              = c1 :: mergeCoords (buildSlcAux [off, d2] idxs
                  ((List.range m).map (fun t => (off + 1) + t)) (off - 0)) [c2] from rfl]
        have hih := ih (off + 1)
        rw [hsc1] at hih
        rw [show off + 1 - 1 = off - 0 from by omega] at hih
        rw [show ([c1, c2].drop 1) = [c2] from rfl] at hih
        rw [hih]
        rw [show dirCoordAt off d2 idxs c1 c2 off = c1 from by
          simp [dirCoordAt]]
      · by_cases h2 : off = d2
        · subst h2
          have hsc : selCountBelow d1 off off = 1 := by
            unfold selCountBelow
            split_ifs <;> omega
          have hsc1 : selCountBelow d1 off (off + 1) = 2 := by
            unfold selCountBelow
            split_ifs <;> omega
          rw [hsc]
          rw [show buildSlcAux [d1, off] idxs
                (off :: (List.range m).map (fun t => (off + 1) + t)) (off - 1)
                = Slc.all :: buildSlcAux [d1, off] idxs
                    ((List.range m).map (fun t => (off + 1) + t)) (off - 1) from by
              simp [buildSlcAux]]
          rw [show ([c1, c2].drop 1) = [c2] from rfl]
          rw [show mergeCoords (Slc.all :: buildSlcAux [d1, off] idxs
                ((List.range m).map (fun t => (off + 1) + t)) (off - 1)) [c2]
                = c2 :: mergeCoords (buildSlcAux [d1, off] idxs
                    ((List.range m).map (fun t => (off + 1) + t)) (off - 1)) [] from rfl]
          have hih := ih (off + 1)
          rw [hsc1] at hih
          rw [show off + 1 - 2 = off - 1 from by omega] at hih
          rw [show ([c1, c2].drop 2) = ([] : List Nat) from rfl] at hih
          rw [hih]
          rw [show dirCoordAt d1 off idxs c1 c2 off = c2 from by
            simp only [dirCoordAt]
            rw [if_neg (show ¬ off = d1 from by omega)]
            simp]
        · have hle : selCountBelow d1 d2 off ≤ off := by
            unfold selCountBelow
            split_ifs <;> omega
          have hsc : selCountBelow d1 d2 (off + 1) = selCountBelow d1 d2 off := by
            unfold selCountBelow
            split_ifs <;> omega
          rw [show buildSlcAux [d1, d2] idxs
                (off :: (List.range m).map (fun t => (off + 1) + t))
                (off - selCountBelow d1 d2 off)
                = Slc.fixed (idxs.getD (off - selCountBelow d1 d2 off) 0)
                    :: buildSlcAux [d1, d2] idxs
                      ((List.range m).map (fun t => (off + 1) + t))
                      ((off - selCountBelow d1 d2 off) + 1) from by
              simp only [buildSlcAux]
              rw [if_neg (show ¬ (off ∈ [d1, d2]) from by simp [h1, h2])]]
          rw [show ∀ (X : List Slc) (cs : List Nat) (v : Nat),
                mergeCoords (Slc.fixed v :: X) cs = v :: mergeCoords X cs from
              fun X cs v => rfl]
          have hih := ih (off + 1)
          rw [hsc] at hih
          rw [show off + 1 - selCountBelow d1 d2 off
                = (off - selCountBelow d1 d2 off) + 1 from by omega] at hih
          rw [hih]
          rw [show dirCoordAt d1 d2 idxs c1 c2 off
                = idxs.getD (off - selCountBelow d1 d2 off) 0 from by
            simp only [dirCoordAt]
            rw [if_neg h1, if_neg h2]]
/-- Claim C10: for every array of rank at least 3, rendering with a
dimension selection of other than exactly two axes reports the non-fatal
configuration error and produces no plot; with exactly two selected axes
`d1 < d2` and a fixed index for every other axis, rendering succeeds and
the plotted curve equals (in shape and pointwise in its entries) the 2-D
slice obtained by directly indexing the array with those fixed values. -/
theorem claim_C10_plot_slice :
    (∀ (a : NpArray) (dims idxs : List Nat),
        3 ≤ a.ndim → dims.length ≠ 2 →
        plotArray a (some (dims, idxs)) = PlotResult.configError msgDimsError)
    ∧ (∀ (a : NpArray) (d1 d2 : Nat) (idxs : List Nat),
        3 ≤ a.ndim → d1 < d2 → d2 < a.ndim →
        plotArray a (some ([d1, d2], idxs))
            = PlotResult.plotted (applySlc a (buildSlc a.ndim [d1, d2] idxs))
          ∧ (applySlc a (buildSlc a.ndim [d1, d2] idxs)).shape
              = (directSlice a d1 d2 idxs).shape
          ∧ ∀ c1 c2 : Nat,
              (applySlc a (buildSlc a.ndim [d1, d2] idxs)).data [c1, c2]
                = (directSlice a d1 d2 idxs).data [c1, c2]) := by
  constructor
  · intro a dims idxs h3 hlen
    unfold plotArray
    rw [if_neg (show ¬ a.ndim = 1 from by omega),
        if_neg (show ¬ a.ndim = 2 from by omega)]
    simp only [if_pos hlen]
  · intro a d1 d2 idxs h3 h12 h2n
    refine ⟨?_, ?_, ?_⟩
    · unfold plotArray
      rw [if_neg (show ¬ a.ndim = 1 from by omega),
          if_neg (show ¬ a.ndim = 2 from by omega)]
      show (if ([d1, d2] : List Nat).length ≠ 2 then PlotResult.configError msgDimsError
            else PlotResult.plotted (applySlc a (buildSlc a.ndim [d1, d2] idxs)))
          = PlotResult.plotted (applySlc a (buildSlc a.ndim [d1, d2] idxs))
      rw [if_neg (show ¬ (([d1, d2] : List Nat).length ≠ 2) from by simp)]
    · show slcShape (buildSlc a.ndim [d1, d2] idxs) a.shape
        = [a.shape.getD d1 0, a.shape.getD d2 0]
      unfold buildSlc
      rw [show List.range a.ndim = (List.range a.ndim).map (fun t => 0 + t) from by simp]
      rw [slcShapeBuild d1 d2 idxs h12 a.ndim 0 0 a.shape]
      rw [if_pos (show 0 ≤ d1 ∧ d1 < 0 + a.ndim from by omega),
          if_pos (show 0 ≤ d2 ∧ d2 < 0 + a.ndim from by omega)]
      rw [show d1 - 0 = d1 from by omega, show d2 - 0 = d2 from by omega]
      rfl
    · intro c1 c2
      show a.data (mergeCoords (buildSlcAux [d1, d2] idxs (List.range a.ndim) 0) [c1, c2])
          = a.data (directCoords a.ndim d1 d2 c1 c2 idxs)
      have h0 : selCountBelow d1 d2 0 = 0 := by
        unfold selCountBelow
        split_ifs <;> omega
      have hmb := mergeBuild d1 d2 idxs c1 c2 h12 a.ndim 0
      rw [h0] at hmb
      rw [show (0 : Nat) - 0 = 0 from rfl] at hmb
      rw [show ([c1, c2].drop 0) = [c1, c2] from rfl] at hmb
      rw [show (List.range a.ndim).map (fun t => (0 : Nat) + t) = List.range a.ndim from by
        simp] at hmb
      rw [show (fun t => dirCoordAt d1 d2 idxs c1 c2 (0 + t)) = dirCoordAt d1 d2 idxs c1 c2 from
        funext fun t => by rw [Nat.zero_add]] at hmb
      exact congrArg a.data hmb
/-- Claim C10, witness: the plot laws at the concrete rank-3 demo array:
a one-axis selection yields the configuration error; selecting axes 0 and
2 with fixed index 1 for axis 1 plots the slice that equals direct
indexing. -/
theorem claim_C10_witness :
    (3 ≤ npDemo.ndim ∧ ([0] : List Nat).length ≠ 2
      ∧ plotArray npDemo (some ([0], [1, 0])) = PlotResult.configError msgDimsError)
    ∧ (3 ≤ npDemo.ndim ∧ 0 < 2 ∧ 2 < npDemo.ndim
      ∧ (plotArray npDemo (some ([0, 2], [1]))
            = PlotResult.plotted (applySlc npDemo (buildSlc npDemo.ndim [0, 2] [1]))
          ∧ (applySlc npDemo (buildSlc npDemo.ndim [0, 2] [1])).shape
              = (directSlice npDemo 0 2 [1]).shape
          ∧ ∀ c1 c2 : Nat,
              (applySlc npDemo (buildSlc npDemo.ndim [0, 2] [1])).data [c1, c2]
                = (directSlice npDemo 0 2 [1]).data [c1, c2])) :=
  ⟨⟨by decide, by decide, claim_C10_plot_slice.1 npDemo [0] [1, 0] (by decide) (by decide)⟩,
   ⟨by decide, by decide, by decide,
    claim_C10_plot_slice.2 npDemo 0 2 [1] (by decide) (by decide) (by decide)⟩⟩

end PyironGui
